import Mathlib

/- Shallow embedding of the browser-side orchestration layer of the
   czisch_n8n_api frontend: the workflow poller and scrape orchestrator
   (frontend/src/hooks/useScraping.ts), the Orders resource store
   (frontend/src/hooks/useOrders.ts), the schedule coordinator
   (frontend/src/hooks/useSchedules.ts, second half of the same file),
   and the toast notification bus (frontend/src/context/ToastContext.tsx).

   The HTTP client (frontend/src/lib/api.ts) is the external boundary:
   every modelled operation takes the response(s) it would receive as an
   argument.  An `ApiResult` mirrors the client's `{ data?, error? }`
   result shape; `Option.none` in the `error` field stands for a JS-falsy
   error (absent or empty), matching how the hooks test it with `if (error)`.
   Timers (`setTimeout`) are modelled by explicit deadlines on a
   millisecond clock, and the single-threaded await sequencing of each
   handler is modelled by the order of the request/toast traces it emits. -/

namespace Czisch

/-- JS `String.prototype.trim()` as used by the hooks, modelled on the
character list (strip leading and trailing whitespace).  Lean's built-in
`String.trim` is extensionally the same on the inputs that matter here but
does not reduce in the kernel, so the hooks are embedded with this one. -/
def jsTrim (s : String) : String :=
  ⟨((s.data.dropWhile Char.isWhitespace).reverse.dropWhile Char.isWhitespace).reverse⟩

/-- Request status used across the hooks (`type StatusType` in each hook file). -/
inductive StatusType where
  | idle
  | loading
  | success
  | error
  deriving DecidableEq, Repr

/-- Toast kind, `"success" | "error"` (ToastContext.tsx). -/
inductive ToastKind where
  | success
  | error
  deriving DecidableEq, Repr

/-- A toast surfaced through `showToast(message, type)`. -/
abbrev ToastCall := String × ToastKind

/-- Result shape of every apiClient call: `{ data?: α, error?: string }`.
`error = none` models a JS-falsy error field. -/
structure ApiResult (α : Type) where
  data : Option α
  error : Option String
  deriving DecidableEq, Repr

/-- Workflow status enum carried by `/workflows/{id}/status` responses
(`WorkflowStatusResponse["status"]` strings in lib/api.ts). -/
inductive WorkflowStatus where
  | RUNNING
  | COMPLETED
  | FAILED
  | CANCELED
  | TERMINATED
  | TIMED_OUT
  | NOT_FOUND
  deriving DecidableEq, Repr

/-- The wire string of a workflow status (the TS value is this string). -/
def WorkflowStatus.text : WorkflowStatus → String
  | .RUNNING => "RUNNING"
  | .COMPLETED => "COMPLETED"
  | .FAILED => "FAILED"
  | .CANCELED => "CANCELED"
  | .TERMINATED => "TERMINATED"
  | .TIMED_OUT => "TIMED_OUT"
  | .NOT_FOUND => "NOT_FOUND"

/-- Model of `data.status.toLowerCase()` (useScraping.ts line 98): the lowercase form
of the wire string, tabulated per status so it evaluates in the kernel. -/
def WorkflowStatus.lowerText : WorkflowStatus → String
  | .RUNNING => "running"
  | .COMPLETED => "completed"
  | .FAILED => "failed"
  | .CANCELED => "canceled"
  | .TERMINATED => "terminated"
  | .TIMED_OUT => "timed_out"
  | .NOT_FOUND => "not_found"

/-- The `result` payload of a COMPLETED scrape workflow.  The hook reads
each count defensively (`result.processed_count || 0`), so the fields are
optional here and read with `Option.getD 0`. -/
structure ScrapeResult where
  processed_count : Option Nat
  skipped_orders : Option Nat
  failed_count : Option Nat
  deriving DecidableEq, Repr

/-- Shape of `WorkflowStatusResponse` from lib/api.ts as consumed by useScraping.ts. -/
structure WorkflowStatusResponse where
  status : WorkflowStatus
  result : Option ScrapeResult
  error : Option String
  deriving DecidableEq, Repr

/-- Outbound authenticated requests the modelled handlers can issue. -/
inductive ApiRequest where
  | getOrders (skip limit : Nat)
  | deleteOrder (id : Nat)
  | triggerUpload (orderId : Nat)
  | toggleSchedule (id : Nat)
  | getSchedules
  | scrapeOrders (url : String)
  | updateScrapeConfig (customOrderListUrl : Option String)
  | syncSchedules
  deriving DecidableEq, Repr

/- ===== Workflow poller (useScraping.ts, pollWorkflowStatus, lines 82-106) ===== -/

/-- What one iteration of the poll loop does with one status response. -/
inductive PollStep where
  | resolve (result : Option ScrapeResult)
  | reject (message : String)
  | keepPolling
  deriving DecidableEq, Repr

/-- Classification of a single `getWorkflowStatus` response, transcribing
useScraping.ts lines 87-99: a truthy transport error or a missing body
throws; COMPLETED returns `data.result || null`; FAILED/CANCELED/TERMINATED
throws `data.error || "Workflow " + status.toLowerCase()`; anything else
falls through to the sleep and the next attempt. -/
def pollStep (resp : ApiResult WorkflowStatusResponse) : PollStep :=
  match resp.error, resp.data with
  | some e, _ => .reject e
  | none, none => .reject "Failed to get workflow status"
  | none, some d =>
    if d.status = .COMPLETED then
      .resolve d.result
    else if d.status = .FAILED ∨ d.status = .CANCELED ∨ d.status = .TERMINATED then
      .reject (d.error.getD ("Workflow " ++ d.status.lowerText))
    else
      .keepPolling

/-- How `pollWorkflowStatus` settles: the resolved value of the returned
promise, or the message of the thrown Error. -/
inductive PollOutcome where
  | resolved (result : Option ScrapeResult)
  | rejected (message : String)
  deriving DecidableEq, Repr

/-- One run of the poll loop: its settlement, how many status requests it
issued, and the durations of the `setTimeout` sleeps it awaited, in order. -/
structure PollRun where
  outcome : PollOutcome
  polls : Nat
  sleeps : List Nat
  deriving DecidableEq, Repr

/-- Duration of the `setTimeout(resolve, 5000)` between attempts (useScraping.ts line 101). -/
def POLL_INTERVAL_MS : Nat := 5000

/-- Value of `const maxAttempts = 120` (useScraping.ts line 83). -/
def MAX_POLL_ATTEMPTS : Nat := 120

/-- The `while (attempts < maxAttempts)` loop of `pollWorkflowStatus`,
with `fuel = maxAttempts - attempts` and `responses n` the body of the
(n+1)-th status response.  Each iteration polls once; on `keepPolling` it
sleeps 5000 ms and recurses; running out of fuel throws
`"Workflow timed out"` (line 105). -/
def pollLoop (responses : Nat → ApiResult WorkflowStatusResponse)
    (attempt fuel : Nat) : PollRun :=
  match fuel with
  | 0 => ⟨.rejected "Workflow timed out", 0, []⟩
  | fuel' + 1 =>
    match pollStep (responses attempt) with
    | .resolve r => ⟨.resolved r, 1, []⟩
    | .reject m => ⟨.rejected m, 1, []⟩
    | .keepPolling =>
      let rest := pollLoop responses (attempt + 1) fuel'
      ⟨rest.outcome, rest.polls + 1, POLL_INTERVAL_MS :: rest.sleeps⟩

/-- Model of `pollWorkflowStatus` (useScraping.ts lines 82-106). -/
def pollWorkflowStatus (responses : Nat → ApiResult WorkflowStatusResponse) : PollRun :=
  pollLoop responses 0 MAX_POLL_ATTEMPTS

/- ===== Scrape orchestrator (useScraping.ts, runScrape, lines 108-168) ===== -/

/-- Everything one `runScrape()` call did: the start request it issued, how
many status polls the poll loop made, the toasts pushed in order, and the
final values of the pieces of hook state it writes
(`scrapeStatus`, `scrapeResult`, `currentWorkflowId`), plus whether the
caller-supplied `onScrapeComplete` callback was invoked. -/
structure RunScrapeOutput where
  requests : List ApiRequest
  polls : Nat
  toasts : List ToastCall
  scrapeStatus : StatusType
  scrapeResult : Option ScrapeResult
  currentWorkflowId : Option String
  completionCalled : Bool
  deriving DecidableEq, Repr

/-- Model of `runScrape` (useScraping.ts lines 108-168), parameterized by the
response to `apiClient.scrapeOrders` (whose `data` carries the workflow id)
and the stream of poll responses.  Transcription notes: the hook checks
`if (!apiKey)` then `if (!scrapeUrl.trim())`; on a missing start body it
sets status `error` and toasts `error || "Failed to start scraping"`; on a
poll resolution with a non-null result it branches on
`(result.failed_count || 0) > 0` to choose the toast text and kind, then
calls `onScrapeComplete()`; on a null result it toasts
`"Workflow completed"`; a poll rejection is caught, sets status `error`,
toasts the error message and does not call the callback; in every settled
path `currentWorkflowId` ends as `null` (line 167). -/
def runScrape (apiKey scrapeUrl : String) (startResp : ApiResult String)
    (responses : Nat → ApiResult WorkflowStatusResponse) : RunScrapeOutput :=
  if apiKey = "" then
    ⟨[], 0, [("API key required", .error)], .idle, none, none, false⟩
  else if jsTrim scrapeUrl = "" then
    ⟨[], 0, [("Order list URL required", .error)], .idle, none, none, false⟩
  else
    match startResp.data with
    | none =>
      ⟨[.scrapeOrders scrapeUrl], 0,
        [(startResp.error.getD "Failed to start scraping", .error)],
        .error, none, none, false⟩
    | some _workflowId =>
      let startToast : ToastCall := ("Workflow started - please wait...", .success)
      let run := pollWorkflowStatus responses
      match run.outcome with
      | .resolved (some result) =>
        let newCount := result.processed_count.getD 0
        let skippedCount := result.skipped_orders.getD 0
        let failedCount := result.failed_count.getD 0
        let doneToast : ToastCall :=
          if failedCount > 0 then
            ("Done: " ++ toString newCount ++ " processed, " ++ toString skippedCount ++
              " skipped, " ++ toString failedCount ++ " failed", .error)
          else
            ("Done: " ++ toString newCount ++ " processed, " ++ toString skippedCount ++
              " skipped", .success)
        ⟨[.scrapeOrders scrapeUrl], run.polls, [startToast, doneToast],
          .success, some result, none, true⟩
      | .resolved none =>
        ⟨[.scrapeOrders scrapeUrl], run.polls,
          [startToast, ("Workflow completed", .success)], .success, none, none, true⟩
      | .rejected message =>
        ⟨[.scrapeOrders scrapeUrl], run.polls,
          [startToast, (message, .error)], .error, none, none, false⟩

/- ===== Debounced config synchronizer (useScraping.ts lines 8, 40-71) ===== -/

/-- Value of `DEFAULT_SCRAPE_URL` (useScraping.ts line 8). -/
def DEFAULT_SCRAPE_URL : String :=
  "https://hapodu.duisburg.de/risource/do/order/list/editable?initSearch=true&reset=false"

/-- The payload of the persist request (useScraping.ts line 45):
`url.trim() === DEFAULT_SCRAPE_URL ? null : url.trim() || null`
(an empty trimmed string is JS-falsy, hence also null). -/
def urlToSave (url : String) : Option String :=
  if jsTrim url = DEFAULT_SCRAPE_URL then none
  else if jsTrim url = "" then none
  else some (jsTrim url)

/-- Trace of one `saveUrlToBackend(url)` call (useScraping.ts lines 41-57):
requests issued in await order, toasts pushed, and the value of the
`scrapeUrl` draft afterwards (the function never writes it). -/
structure SaveUrlOutput where
  requests : List ApiRequest
  toasts : List ToastCall
  scrapeUrlAfter : String
  deriving DecidableEq, Repr

/-- Model of `saveUrlToBackend` (useScraping.ts lines 41-57), parameterized by the
`error` field of the `updateScrapeConfig` response.  It returns early when
the credential is empty; on a persist error it toasts and returns without
touching the draft; otherwise it awaits `syncSchedules()` (result ignored)
strictly after the persist resolved, then toasts success. -/
def saveUrlToBackend (apiKey scrapeUrlDraft url : String)
    (persistError : Option String) : SaveUrlOutput :=
  if apiKey = "" then ⟨[], [], scrapeUrlDraft⟩
  else
    let payload := urlToSave url
    match persistError with
    | some _ => ⟨[.updateScrapeConfig payload], [("Failed to save URL", .error)], scrapeUrlDraft⟩
    | none =>
      ⟨[.updateScrapeConfig payload, .syncSchedules], [("URL saved", .success)], scrapeUrlDraft⟩

/-- The 1000 ms settle window of the debounced save
(useScraping.ts line 70). -/
def SAVE_DEBOUNCE_MS : Nat := 1000

/-- The debounce-relevant hook state: the `scrapeUrl` draft, the pending
`saveTimeoutRef` timer as (deadline, captured url), and the persist calls
(`saveUrlToBackend(url)` invocations) that have fired so far, as
(fire time, url). -/
structure DebounceState where
  scrapeUrl : String
  pending : Option (Nat × String)
  persistCalls : List (Nat × String)
  deriving DecidableEq, Repr

/-- State before any edit: the default url, no timer, no persists. -/
def initialDebounceState : DebounceState := ⟨DEFAULT_SCRAPE_URL, none, []⟩

/-- Fire the pending save timer if its deadline has been reached by time
`t`: `setTimeout(() => saveUrlToBackend(url), 1000)` runs its callback,
recording a persist call with the url it captured. -/
def firePending (t : Nat) (s : DebounceState) : DebounceState :=
  match s.pending with
  | some (deadline, url) =>
    if deadline ≤ t then
      ⟨s.scrapeUrl, none, s.persistCalls ++ [(deadline, url)]⟩
    else s
  | none => s

/-- Model of `handleScrapeUrlChange` at clock time `t` (useScraping.ts lines 60-71):
sets the draft immediately, `clearTimeout`s any pending save timer, and
schedules a new save of this url at `t + 1000`. -/
def handleScrapeUrlChange (t : Nat) (url : String) (s : DebounceState) : DebounceState :=
  ⟨url, some (t + SAVE_DEBOUNCE_MS, url), s.persistCalls⟩

/-- Run a time-ordered burst of (time, value) edits through the handler:
before each edit, a timer whose deadline already passed has fired; after
the last edit the clock runs on and any still-pending timer fires. -/
def runEdits : List (Nat × String) → DebounceState → DebounceState
  | [], s =>
    match s.pending with
    | some (deadline, url) => ⟨s.scrapeUrl, none, s.persistCalls ++ [(deadline, url)]⟩
    | none => s
  | (t, url) :: rest, s => runEdits rest (handleScrapeUrlChange t url (firePending t s))

/- ===== Orders resource store (useOrders.ts) ===== -/

/-- The fields of an order the store logic reads (`Order` in lib/api.ts;
the remaining columns are presentational only). -/
structure Order where
  id : Nat
  order_id : String
  status : String
  deriving DecidableEq, Repr

/-- Body of a successful `GET /orders?skip=&limit=` response. -/
structure OrdersPage where
  orders : List Order
  total : Nat
  deriving DecidableEq, Repr

/-- Value of `const PAGE_SIZE = 10` (useOrders.ts line 8). -/
def PAGE_SIZE : Nat := 10

/-- The store state written by `fetchOrders`/`goToPage` (useOrders.ts
lines 11-15). -/
structure OrdersState where
  orders : List Order
  ordersTotal : Nat
  ordersStatus : StatusType
  currentPage : Nat
  pendingUploads : Nat
  deriving DecidableEq, Repr

/-- Store state on mount. -/
def initialOrdersState : OrdersState := ⟨[], 0, .idle, 0, 0⟩

/-- The request `fetchOrders(page)` issues: nothing when the credential is
empty (`if (!apiKey) return`, line 33), else `getOrders(page * 10, 10)`. -/
def fetchOrdersRequest (apiKey : String) (page : Nat) : List ApiRequest :=
  if apiKey = "" then [] else [.getOrders (page * PAGE_SIZE) PAGE_SIZE]

/-- The synchronous half of `fetchOrders(page)` before its await
(useOrders.ts lines 32-37): credential guard, set status `loading`, issue
the page request. -/
def fetchOrdersStart (apiKey : String) (page : Nat) (s : OrdersState) :
    OrdersState × List ApiRequest :=
  if apiKey = "" then (s, [])
  else ({ s with ordersStatus := .loading }, fetchOrdersRequest apiKey page)

/-- The continuation of `fetchOrders` once its response arrives
(useOrders.ts lines 38-48).  Note that it installs the response wholesale:
it never consults `currentPage` nor compares the page the request was for
against the cursor at resolution time.  On failure it clears the items and
leaves the total unchanged. -/
def fetchOrdersResolve (resp : ApiResult OrdersPage) (s : OrdersState) :
    OrdersState × List ToastCall :=
  match resp.data with
  | some d =>
    ({ s with
        orders := d.orders
        ordersTotal := d.total
        ordersStatus := .success
        pendingUploads := (d.orders.filter (fun o => o.status == "converted")).length }, [])
  | none =>
    ({ s with orders := [], ordersStatus := .error },
      [(resp.error.getD "Failed to fetch orders", .error)])

/-- Model of `goToPage(page)` (useOrders.ts lines 155-158): set the cursor, then
start `fetchOrders(page)`. -/
def goToPage (apiKey : String) (page : Nat) (s : OrdersState) :
    OrdersState × List ApiRequest :=
  fetchOrdersStart apiKey page { s with currentPage := page }

/-- The race trace of §4.2/§8 on the Orders store: `goToPage 0`, then
`goToPage 1` before the first response arrives, then the page-1 response
`d1` resolves, then the stale page-0 response `d0` resolves last.  Returns
the store state the UI displays afterwards. -/
def staleRaceFinal (apiKey : String) (d0 d1 : OrdersPage) : OrdersState :=
  let s1 := (goToPage apiKey 0 initialOrdersState).1
  let s2 := (goToPage apiKey 1 s1).1
  let s3 := (fetchOrdersResolve ⟨some d1, none⟩ s2).1
  (fetchOrdersResolve ⟨some d0, none⟩ s3).1

/-- Model of `deleteOrder(id)` (useOrders.ts lines 51-60) as a trace: the DELETE
request is issued with no credential guard; on success it toasts
`data.message` and re-fetches the current page (that refetch alone is
guarded, inside `fetchOrders`); on failure it toasts the error. -/
def deleteOrder (apiKey : String) (currentPage id : Nat) (resp : ApiResult String) :
    List ApiRequest × List ToastCall :=
  match resp.data with
  | some message =>
    (ApiRequest.deleteOrder id :: fetchOrdersRequest apiKey currentPage, [(message, .success)])
  | none =>
    ([ApiRequest.deleteOrder id], [(resp.error.getD "Failed to delete order", .error)])

/-- Model of `uploadSingleOrder(orderId)` (useOrders.ts lines 62-71) as a trace: the
upload trigger is issued with no credential guard; on success it toasts and
schedules a delayed re-fetch of the current page (delay not modelled; the
refetch request follows in the trace and is itself guarded). -/
def uploadSingleOrder (apiKey : String) (currentPage orderId : Nat) (resp : ApiResult String) :
    List ApiRequest × List ToastCall :=
  match resp.data with
  | some _ =>
    (ApiRequest.triggerUpload orderId :: fetchOrdersRequest apiKey currentPage,
      [("Upload triggered for order " ++ toString orderId, .success)])
  | none =>
    ([ApiRequest.triggerUpload orderId], [(resp.error.getD "Failed to trigger upload", .error)])

/- ===== Schedule coordinator (useSchedules, second part of useOrders.ts file) ===== -/

/-- Body of a successful toggle response (`time_display`, `enabled`). -/
structure ToggleData where
  time_display : String
  enabled : Bool
  deriving DecidableEq, Repr

/-- The request `fetchSchedules()` issues: nothing when the credential is
empty (`if (!apiKey) return`), else the list request. -/
def fetchSchedulesRequest (apiKey : String) : List ApiRequest :=
  if apiKey = "" then [] else [.getSchedules]

/-- Model of `toggleScheduleEnabled(id)` (useSchedules lines 258-267) as a trace:
the toggle request is issued with no credential guard; on success it toasts
and re-fetches the schedule list (that refetch alone is guarded). -/
def toggleScheduleEnabled (apiKey : String) (id : Nat) (resp : ApiResult ToggleData) :
    List ApiRequest × List ToastCall :=
  match resp.data with
  | some d =>
    (ApiRequest.toggleSchedule id :: fetchSchedulesRequest apiKey,
      [("Time " ++ d.time_display ++ (if d.enabled then " enabled" else " disabled"), .success)])
  | none =>
    ([ApiRequest.toggleSchedule id], [(resp.error.getD "Error", .error)])

/- ===== Notification bus (ToastContext.tsx) ===== -/

/-- A queued toast (`interface Toast` in ToastContext.tsx). -/
structure ToastEntry where
  id : Nat
  message : String
  kind : ToastKind
  deriving DecidableEq, Repr

/-- The removal delay of every toast (`setTimeout(..., 4000)`, line 27). -/
def TOAST_DURATION_MS : Nat := 4000

/-- The id `showToast` computes at millisecond `now` with counter value
`counter`: `Date.now() * 1000 + (toastCounterRef.current++ % 1000)`
(ToastContext.tsx line 23). -/
def toastId (now counter : Nat) : Nat := now * 1000 + counter % 1000

/-- Provider state: the queue, the id counter ref, and the scheduled
removal timers as (deadline, toast id) in creation order. -/
structure ToastState where
  toasts : List ToastEntry
  toastCounter : Nat
  timers : List (Nat × Nat)
  deriving DecidableEq, Repr

/-- Provider state on mount. -/
def initialToastState : ToastState := ⟨[], 0, []⟩

/-- Model of `showToast(message, type)` at millisecond `now` (ToastContext.tsx
lines 22-28): compute the id, append the entry, bump the counter, and
schedule this toast's own removal 4000 ms later.  It never touches the
timers of earlier toasts (there is no `clearTimeout` in the provider). -/
def showToast (now : Nat) (message : String) (kind : ToastKind) (s : ToastState) : ToastState :=
  let id := toastId now s.toastCounter
  ⟨s.toasts ++ [⟨id, message, kind⟩], s.toastCounter + 1,
    s.timers ++ [(now + TOAST_DURATION_MS, id)]⟩

/-- The removal callback a push scheduled for toast `id`
(ToastContext.tsx line 26): filter that id out of the queue. -/
def removeToast (id : Nat) (s : ToastState) : ToastState :=
  { s with toasts := s.toasts.filter (fun t => t.id != id) }

/-- Repeated pushes (`n` of them), all within the same millisecond `now`,
starting from the freshly-mounted provider. -/
def pushSame (n now : Nat) : ToastState :=
  match n with
  | 0 => initialToastState
  | k + 1 => showToast now "msg" .success (pushSame k now)

/- ===== Theorems ===== -/

/-- A status stream that never leaves RUNNING makes the loop poll once per
unit of its remaining attempt budget, sleep 5000 ms after every poll, and
throw the timeout error when the budget runs out. -/
theorem pollLoop_always_running (res : Nat → Option ScrapeResult) (err : Nat → Option String) :
    ∀ fuel attempt,
      pollLoop (fun n => ⟨some ⟨.RUNNING, res n, err n⟩, none⟩) attempt fuel =
        ⟨.rejected "Workflow timed out", fuel, List.replicate fuel POLL_INTERVAL_MS⟩ := by
  intro fuel
  induction fuel with
  | zero => intro attempt; rfl
  | succ k ih =>
    intro attempt
    simp [pollLoop, pollStep, ih, List.replicate_succ]

/-- C3: if the workflow status never leaves RUNNING, `pollWorkflowStatus`
issues exactly 120 status polls (no more, no fewer), sleeps a fixed
5000 ms after each attempt, and settles by rejecting with the dedicated
timeout message, which differs from every server-failure message the loop
can otherwise produce. -/
theorem C3_poll_termination_bound
    (res : Nat → Option ScrapeResult) (err : Nat → Option String) :
    pollWorkflowStatus (fun n => ⟨some ⟨.RUNNING, res n, err n⟩, none⟩) =
      ⟨.rejected "Workflow timed out", 120, List.replicate 120 5000⟩ ∧
    MAX_POLL_ATTEMPTS = 120 ∧ POLL_INTERVAL_MS = 5000 ∧
    ("Workflow timed out" ≠ "Workflow failed" ∧
     "Workflow timed out" ≠ "Workflow canceled" ∧
     "Workflow timed out" ≠ "Workflow terminated" ∧
     "Workflow timed out" ≠ "Failed to get workflow status") :=
  ⟨pollLoop_always_running res err 120 0, rfl, rfl, by decide⟩

/-- C5: classification of a single poll response — COMPLETED resolves with
the attached result payload; FAILED/CANCELED/TERMINATED reject with the
server-supplied error string or, if none is supplied, with the generic
message keyed to the lowercased status name; RUNNING, NOT_FOUND and
TIMED_OUT fall through, and a fall-through makes the loop poll again with
the rest of its budget rather than settle. -/
theorem C5_poll_classification :
    (∀ r e, pollStep ⟨some ⟨.COMPLETED, r, e⟩, none⟩ = .resolve r) ∧
    (∀ r m, pollStep ⟨some ⟨.FAILED, r, some m⟩, none⟩ = .reject m) ∧
    (∀ r m, pollStep ⟨some ⟨.CANCELED, r, some m⟩, none⟩ = .reject m) ∧
    (∀ r m, pollStep ⟨some ⟨.TERMINATED, r, some m⟩, none⟩ = .reject m) ∧
    (∀ r, pollStep ⟨some ⟨.FAILED, r, none⟩, none⟩ = .reject "Workflow failed") ∧
    (∀ r, pollStep ⟨some ⟨.CANCELED, r, none⟩, none⟩ = .reject "Workflow canceled") ∧
    (∀ r, pollStep ⟨some ⟨.TERMINATED, r, none⟩, none⟩ = .reject "Workflow terminated") ∧
    (∀ r e, pollStep ⟨some ⟨.RUNNING, r, e⟩, none⟩ = .keepPolling) ∧
    (∀ r e, pollStep ⟨some ⟨.NOT_FOUND, r, e⟩, none⟩ = .keepPolling) ∧
    (∀ r e, pollStep ⟨some ⟨.TIMED_OUT, r, e⟩, none⟩ = .keepPolling) ∧
    (∀ responses attempt fuel, pollStep (responses attempt) = .keepPolling →
      pollLoop responses attempt (fuel + 1) =
        ⟨(pollLoop responses (attempt + 1) fuel).outcome,
         (pollLoop responses (attempt + 1) fuel).polls + 1,
         POLL_INTERVAL_MS :: (pollLoop responses (attempt + 1) fuel).sleeps⟩) := by
  refine ⟨fun r e => rfl, fun r m => rfl, fun r m => rfl, fun r m => rfl,
    fun r => rfl, fun r => rfl, fun r => rfl,
    fun r e => rfl, fun r e => rfl, fun r e => rfl, ?_⟩
  intro responses attempt fuel h
  simp [pollLoop, h]

/-- Witness for C5 at a concrete response stream: a RUNNING response at
attempt 0 makes the loop continue into its remaining budget. -/
theorem C5_poll_classification_witness :
    pollLoop (fun _ => ⟨some ⟨.RUNNING, none, none⟩, none⟩) 0 (0 + 1) =
      ⟨(pollLoop (fun _ => ⟨some ⟨.RUNNING, none, none⟩, none⟩) (0 + 1) 0).outcome,
       (pollLoop (fun _ => ⟨some ⟨.RUNNING, none, none⟩, none⟩) (0 + 1) 0).polls + 1,
       POLL_INTERVAL_MS ::
         (pollLoop (fun _ => ⟨some ⟨.RUNNING, none, none⟩, none⟩) (0 + 1) 0).sleeps⟩ :=
  C5_poll_classification.2.2.2.2.2.2.2.2.2.2
    (fun _ => ⟨some ⟨.RUNNING, none, none⟩, none⟩) 0 0 (by decide)

/-- C10: a poll whose response carries a transport error or an empty body
immediately settles the orchestration as failed: `runScrape` issues only
that one poll, surfaces the error message as an error toast, sets status
`error`, and never invokes the completion callback; at the loop level the
rejection consumes exactly one poll no matter how much budget remains. -/
theorem C10_poll_transport_error_settles (apiKey url wfId : String) (e : Option String)
    (responses : Nat → ApiResult WorkflowStatusResponse)
    (hkey : apiKey ≠ "") (hurl : jsTrim url ≠ "") (h0 : responses 0 = ⟨none, e⟩) :
    runScrape apiKey url ⟨some wfId, none⟩ responses =
      ⟨[.scrapeOrders url], 1,
        [("Workflow started - please wait...", .success),
         (e.getD "Failed to get workflow status", .error)],
        .error, none, none, false⟩ ∧
    (∀ fuel, pollLoop responses 0 (fuel + 1) =
      ⟨.rejected (e.getD "Failed to get workflow status"), 1, []⟩) := by
  have hstep : pollStep (responses 0) = .reject (e.getD "Failed to get workflow status") := by
    rw [h0]; cases e <;> rfl
  have hloop : ∀ fuel, pollLoop responses 0 (fuel + 1) =
      ⟨.rejected (e.getD "Failed to get workflow status"), 1, []⟩ := by
    intro fuel; simp [pollLoop, hstep]
  refine ⟨?_, hloop⟩
  have hrun : pollWorkflowStatus responses =
      ⟨.rejected (e.getD "Failed to get workflow status"), 1, []⟩ := hloop 119
  rw [runScrape, if_neg hkey, if_neg hurl]
  simp [hrun]

/-- One resolving poll response settles the loop with a single poll and no
sleep, whatever budget remains. -/
theorem pollLoop_resolve (responses : Nat → ApiResult WorkflowStatusResponse)
    (attempt fuel : Nat) (r : Option ScrapeResult)
    (h : pollStep (responses attempt) = .resolve r) :
    pollLoop responses attempt (fuel + 1) = ⟨.resolved r, 1, []⟩ := by
  simp [pollLoop, h]

/-- C1 counterexample: a COMPLETED workflow with `processed_count = 3`,
`skipped_orders = 0`, `failed_count = 2` makes `runScrape` surface the
completion notification with kind `error`, not `success` (the only
success-kind toast in the trace is the initial "Workflow started" one),
even though the completion callback is still invoked. -/
theorem C1_counterexample :
    (runScrape "k" "u" ⟨some "wf-1", none⟩
        (fun _ => ⟨some ⟨.COMPLETED, some ⟨some 3, some 0, some 2⟩, none⟩, none⟩)).toasts =
      [("Workflow started - please wait...", .success),
       ("Done: 3 processed, 0 skipped, 2 failed", .error)] ∧
    (runScrape "k" "u" ⟨some "wf-1", none⟩
        (fun _ => ⟨some ⟨.COMPLETED, some ⟨some 3, some 0, some 2⟩, none⟩, none⟩)).completionCalled
      = true ∧
    ToastKind.error ≠ ToastKind.success := by
  refine ⟨?_, ?_, by decide⟩ <;>
    · have h : pollWorkflowStatus
          (fun _ => ⟨some ⟨.COMPLETED, some ⟨some 3, some 0, some 2⟩, none⟩, none⟩) =
          ⟨.resolved (some ⟨some 3, some 0, some 2⟩), 1, []⟩ :=
        pollLoop_resolve _ 0 119 _ rfl
      rw [runScrape]
      simp only [h]
      decide

/-- C1 as the code has it: for a COMPLETED workflow whose result has
`failed_count > 0`, the orchestration still counts as a success — status
ends `success`, the result is stored, `currentWorkflowId` is cleared and
the completion callback is invoked — but the notification surfaced for the
result is an error-kind toast carrying the processed/skipped/failed
counts, not a success-kind one. -/
theorem C1_partial_failure_is_error_toast (apiKey url wfId : String)
    (responses : Nat → ApiResult WorkflowStatusResponse) (r : ScrapeResult)
    (hkey : apiKey ≠ "") (hurl : jsTrim url ≠ "")
    (h0 : responses 0 = ⟨some ⟨.COMPLETED, some r, none⟩, none⟩)
    (hfail : 0 < r.failed_count.getD 0) :
    runScrape apiKey url ⟨some wfId, none⟩ responses =
      ⟨[.scrapeOrders url], 1,
        [("Workflow started - please wait...", .success),
         ("Done: " ++ toString (r.processed_count.getD 0) ++ " processed, " ++
            toString (r.skipped_orders.getD 0) ++ " skipped, " ++
            toString (r.failed_count.getD 0) ++ " failed", .error)],
        .success, some r, none, true⟩ := by
  have hstep : pollStep (responses 0) = .resolve (some r) := by rw [h0]; rfl
  have hrun : pollWorkflowStatus responses = ⟨.resolved (some r), 1, []⟩ :=
    pollLoop_resolve responses 0 119 (some r) hstep
  rw [runScrape, if_neg hkey, if_neg hurl]
  simp [hrun, hfail]

/-- Witness for C1's amended statement at `processed_count = 3`,
`failed_count = 2`. -/
theorem C1_witness :
    ("k" : String) ≠ "" ∧ jsTrim "u" ≠ "" ∧
    0 < (ScrapeResult.mk (some 3) (some 0) (some 2)).failed_count.getD 0 ∧
    runScrape "k" "u" ⟨some "wf-1", none⟩
        (fun _ => ⟨some ⟨.COMPLETED, some ⟨some 3, some 0, some 2⟩, none⟩, none⟩) =
      ⟨[.scrapeOrders "u"], 1,
        [("Workflow started - please wait...", .success),
         ("Done: 3 processed, 0 skipped, 2 failed", .error)],
        .success, some ⟨some 3, some 0, some 2⟩, none, true⟩ :=
  ⟨by decide, by decide, by decide,
    C1_partial_failure_is_error_toast "k" "u" "wf-1"
      (fun _ => ⟨some ⟨.COMPLETED, some ⟨some 3, some 0, some 2⟩, none⟩, none⟩)
      ⟨some 3, some 0, some 2⟩ (by decide) (by decide) rfl (by decide)⟩

/-- Witness for C10: with credential `"k"`, url `"u"` and a first poll
response that has no body and the error string `"boom"`. -/
theorem C10_witness :
    ("k" : String) ≠ "" ∧ jsTrim "u" ≠ "" ∧
    runScrape "k" "u" ⟨some "wf-1", none⟩ (fun _ => ⟨none, some "boom"⟩) =
      ⟨[.scrapeOrders "u"], 1,
        [("Workflow started - please wait...", .success), ("boom", .error)],
        .error, none, none, false⟩ :=
  ⟨by decide, by decide,
    (C10_poll_transport_error_settles "k" "u" "wf-1" (some "boom")
      (fun _ => ⟨none, some "boom"⟩) (by decide) (by decide) rfl).1⟩

/-- C2 counterexample: in the §4.2 race (fetch page 0 issued, cursor moved
to page 1, page-1 response resolves, stale page-0 response resolves last)
the Orders store displays page 0's items while its cursor says page 1 —
the stale response is installed, not discarded. -/
theorem C2_counterexample :
    (staleRaceFinal "k" ⟨[⟨1, "ORD-1", "scraped"⟩], 2⟩ ⟨[⟨2, "ORD-2", "scraped"⟩], 2⟩).currentPage
      = 1 ∧
    (staleRaceFinal "k" ⟨[⟨1, "ORD-1", "scraped"⟩], 2⟩ ⟨[⟨2, "ORD-2", "scraped"⟩], 2⟩).orders
      = [⟨1, "ORD-1", "scraped"⟩] ∧
    ([⟨1, "ORD-1", "scraped"⟩] : List Order) ≠ [⟨2, "ORD-2", "scraped"⟩] := by
  decide

/-- C2 as the code has it: `fetchOrders`'s resolution handler installs
whichever response resolves last, without comparing the page it was issued
for against the current cursor; in the §4.2 race the final state shows the
stale page-0 payload `d0` under cursor 1. -/
theorem C2_last_response_wins (apiKey : String) (d0 d1 : OrdersPage)
    (hkey : apiKey ≠ "") :
    (staleRaceFinal apiKey d0 d1).currentPage = 1 ∧
    (staleRaceFinal apiKey d0 d1).orders = d0.orders ∧
    (staleRaceFinal apiKey d0 d1).ordersTotal = d0.total := by
  simp [staleRaceFinal, goToPage, fetchOrdersStart, fetchOrdersResolve,
    fetchOrdersRequest, hkey]

/-- Witness for C2's amended statement at concrete pages. -/
theorem C2_witness :
    ("key" : String) ≠ "" ∧
    (staleRaceFinal "key" ⟨[⟨3, "A", "scraped"⟩], 5⟩ ⟨[⟨4, "B", "sent"⟩], 5⟩).currentPage = 1 ∧
    (staleRaceFinal "key" ⟨[⟨3, "A", "scraped"⟩], 5⟩ ⟨[⟨4, "B", "sent"⟩], 5⟩).orders
      = [⟨3, "A", "scraped"⟩] ∧
    (staleRaceFinal "key" ⟨[⟨3, "A", "scraped"⟩], 5⟩ ⟨[⟨4, "B", "sent"⟩], 5⟩).ordersTotal = 5 :=
  ⟨by decide,
    (C2_last_response_wins "key" ⟨[⟨3, "A", "scraped"⟩], 5⟩ ⟨[⟨4, "B", "sent"⟩], 5⟩
      (by decide)).1,
    (C2_last_response_wins "key" ⟨[⟨3, "A", "scraped"⟩], 5⟩ ⟨[⟨4, "B", "sent"⟩], 5⟩
      (by decide)).2.1,
    (C2_last_response_wins "key" ⟨[⟨3, "A", "scraped"⟩], 5⟩ ⟨[⟨4, "B", "sent"⟩], 5⟩
      (by decide)).2.2⟩

/-- C4 counterexample: with an empty credential, `deleteOrder(5)` still
issues its authenticated DELETE request — it neither fails fast nor
returns without issuing it. -/
theorem C4_counterexample :
    (deleteOrder "" 0 5 ⟨none, some "unauthorized"⟩).1 = [.deleteOrder 5] ∧
    ([ApiRequest.deleteOrder 5] : List ApiRequest) ≠ [] := by
  decide

/-- C4 as the code has it: the empty-credential guard exists only in some
operations.  `fetchOrders`, `fetchSchedules`, `runScrape` and
`saveUrlToBackend` issue no request when the credential is empty, but
`deleteOrder`, `uploadSingleOrder` and `toggleScheduleEnabled` issue their
authenticated request unconditionally (only their follow-up refetch is
guarded, inside the fetch helpers). -/
theorem C4_guard_only_partial :
    (∀ page, fetchOrdersRequest "" page = []) ∧
    fetchSchedulesRequest "" = [] ∧
    (∀ url start responses, (runScrape "" url start responses).requests = []) ∧
    (∀ draft url pe, (saveUrlToBackend "" draft url pe).requests = []) ∧
    (∀ cur id resp, (deleteOrder "" cur id resp).1.head? = some (.deleteOrder id)) ∧
    (∀ cur oid resp, (uploadSingleOrder "" cur oid resp).1.head? = some (.triggerUpload oid)) ∧
    (∀ id resp, (toggleScheduleEnabled "" id resp).1.head? = some (.toggleSchedule id)) := by
  refine ⟨fun page => rfl, rfl, fun url start responses => rfl, fun draft url pe => rfl,
    fun cur id resp => ?_, fun cur oid resp => ?_, fun id resp => ?_⟩ <;>
    · obtain ⟨d, e⟩ := resp
      cases d <;> rfl

/-- C6: for the edit burst at relative times 0, 200, 400 ms with the
1000 ms settle window, each edit overwrites the previously scheduled save
timer, exactly one persist call occurs — at t = 1400 carrying the t = 400
value — and the local draft is updated immediately on every edit. -/
theorem C6_debounce_settlement (v0 v1 v2 : String) :
    (runEdits [(0, v0), (200, v1), (400, v2)] initialDebounceState).persistCalls
      = [(400 + SAVE_DEBOUNCE_MS, v2)] ∧
    (runEdits [(0, v0), (200, v1), (400, v2)] initialDebounceState).scrapeUrl = v2 ∧
    (∀ t url s, (handleScrapeUrlChange t url s).scrapeUrl = url ∧
      (handleScrapeUrlChange t url s).pending = some (t + SAVE_DEBOUNCE_MS, url)) :=
  ⟨rfl, rfl, fun t url s => ⟨rfl, rfl⟩⟩

/-- C7: when the edited value trims to the literal default scrape url, the
persisted override is `null` (`none`), never the literal default string —
the persist request issued first by `saveUrlToBackend` carries payload
`none` whether or not the persist later fails. -/
theorem C7_default_normalized_to_null (apiKey draft url : String) (pe : Option String)
    (hkey : apiKey ≠ "") (hdef : jsTrim url = DEFAULT_SCRAPE_URL) :
    urlToSave url = none ∧
    (saveUrlToBackend apiKey draft url pe).requests.head?
      = some (.updateScrapeConfig none) := by
  have h1 : urlToSave url = none := by rw [urlToSave, if_pos hdef]
  refine ⟨h1, ?_⟩
  rw [saveUrlToBackend, if_neg hkey]
  cases pe <;> simp [h1]

/-- Witness for C7 at the literal default url. -/
theorem C7_witness :
    ("k" : String) ≠ "" ∧ jsTrim DEFAULT_SCRAPE_URL = DEFAULT_SCRAPE_URL ∧
    urlToSave DEFAULT_SCRAPE_URL = none ∧
    (saveUrlToBackend "k" "" DEFAULT_SCRAPE_URL none).requests.head?
      = some (.updateScrapeConfig none) :=
  ⟨by decide, by decide,
    (C7_default_normalized_to_null "k" "" DEFAULT_SCRAPE_URL none (by decide) (by decide)).1,
    (C7_default_normalized_to_null "k" "" DEFAULT_SCRAPE_URL none (by decide) (by decide)).2⟩

/-- C8: for a settled edit, the schedule-sync request is issued strictly
after the config persist has completed successfully — the trace is exactly
persist-then-sync on success, while a failed persist issues no sync at
all, surfaces only the failure toast, and leaves the local draft
untouched (as does the success path). -/
theorem C8_sync_strictly_after_persist (apiKey draft url e : String)
    (hkey : apiKey ≠ "") :
    (saveUrlToBackend apiKey draft url none).requests
      = [.updateScrapeConfig (urlToSave url), .syncSchedules] ∧
    (saveUrlToBackend apiKey draft url none).toasts = [("URL saved", .success)] ∧
    (saveUrlToBackend apiKey draft url (some e)).requests
      = [.updateScrapeConfig (urlToSave url)] ∧
    ApiRequest.syncSchedules ∉ (saveUrlToBackend apiKey draft url (some e)).requests ∧
    (saveUrlToBackend apiKey draft url (some e)).toasts
      = [("Failed to save URL", .error)] ∧
    (saveUrlToBackend apiKey draft url (some e)).scrapeUrlAfter = draft ∧
    (saveUrlToBackend apiKey draft url none).scrapeUrlAfter = draft := by
  simp [saveUrlToBackend, hkey]

/-- Witness for C8 with credential `"k"`, a draft, a fresh url and a
persist failure message `"500"`. -/
theorem C8_witness :
    ("k" : String) ≠ "" ∧
    (saveUrlToBackend "k" "draft" "https://x" none).requests
      = [.updateScrapeConfig (urlToSave "https://x"), .syncSchedules] ∧
    ApiRequest.syncSchedules ∉ (saveUrlToBackend "k" "draft" "https://x" (some "500")).requests ∧
    (saveUrlToBackend "k" "draft" "https://x" (some "500")).scrapeUrlAfter = "draft" :=
  ⟨by decide,
    (C8_sync_strictly_after_persist "k" "draft" "https://x" "500" (by decide)).1,
    (C8_sync_strictly_after_persist "k" "draft" "https://x" "500" (by decide)).2.2.2.1,
    (C8_sync_strictly_after_persist "k" "draft" "https://x" "500" (by decide)).2.2.2.2.2.1⟩

/-- After `n` pushes in the same millisecond from a fresh provider, the
counter is `n` and the queue holds one entry per push, the k-th carrying
id `toastId now k`. -/
theorem pushSame_toasts (now : Nat) : ∀ n,
    (pushSame n now).toastCounter = n ∧
    (pushSame n now).toasts =
      (List.range n).map (fun k => ⟨toastId now k, "msg", .success⟩) := by
  intro n
  induction n with
  | zero => exact ⟨rfl, rfl⟩
  | succ k ih =>
    refine ⟨?_, ?_⟩
    · show (showToast now "msg" .success (pushSame k now)).toastCounter = k + 1
      simp [showToast, ih.1]
    · show (showToast now "msg" .success (pushSame k now)).toasts = _
      rw [List.range_succ, List.map_append]
      simp [showToast, ih.1, ih.2]

/-- C9 counterexample: 1001 pushes within the same millisecond (clock 7)
leave 1001 live toasts of which the first and the thousand-and-first share
id 7000 — `Date.now() * 1000 + counter % 1000` wraps after 1000 pushes in
one millisecond, so ids are not distinct for every push sequence. -/
theorem C9_counterexample :
    ((pushSame 1001 7).toasts.map ToastEntry.id)[0]? = some 7000 ∧
    ((pushSame 1001 7).toasts.map ToastEntry.id)[1000]? = some 7000 ∧
    (pushSame 1001 7).toasts.length = 1001 := by
  rw [(pushSame_toasts 7 1001).2, List.map_map]
  have hcomp : (ToastEntry.id ∘ fun k => ToastEntry.mk (toastId 7 k) "msg" .success)
      = fun k => toastId 7 k := rfl
  rw [hcomp, List.getElem?_map _ _ 0, List.getElem?_map _ _ 1000,
    List.getElem?_range (by decide : (0 : Nat) < 1001),
    List.getElem?_range (by decide : (1000 : Nat) < 1001),
    List.length_map, List.length_range]
  refine ⟨rfl, rfl, rfl⟩

/-- C9 as the code has it: toast ids collide exactly when both the
creation millisecond and the counter residue mod 1000 coincide, so any two
of up to 1000 same-millisecond pushes get distinct ids; each push appends
its own removal timer 4000 ms out, and later pushes never cancel earlier
timers (`showToast` only appends to the timer list); a removal filters out
only its own id. -/
theorem C9_toast_ids_and_timers :
    (∀ t1 c1 t2 c2, toastId t1 c1 = toastId t2 c2 ↔ (t1 = t2 ∧ c1 % 1000 = c2 % 1000)) ∧
    (∀ now n i j, i < j → j < n → n ≤ 1000 →
      ((pushSame n now).toasts.map ToastEntry.id)[i]? ≠
        ((pushSame n now).toasts.map ToastEntry.id)[j]?) ∧
    (∀ now m k s, (showToast now m k s).timers
      = s.timers ++ [(now + TOAST_DURATION_MS, toastId now s.toastCounter)]) ∧
    (∀ id s, (removeToast id s).toasts = s.toasts.filter (fun t => t.id != id)) ∧
    TOAST_DURATION_MS = 4000 := by
  refine ⟨?_, ?_, fun now m k s => rfl, fun id s => rfl, rfl⟩
  · intro t1 c1 t2 c2
    constructor
    · intro h
      unfold toastId at h
      omega
    · rintro ⟨h1, h2⟩
      unfold toastId
      rw [h1, h2]
  · intro now n i j hij hjn hn
    rw [(pushSame_toasts now n).2, List.map_map]
    have hcomp : (ToastEntry.id ∘ fun k => ToastEntry.mk (toastId now k) "msg" .success)
        = fun k => toastId now k := rfl
    rw [hcomp, List.getElem?_map _ _ i, List.getElem?_map _ _ j,
      List.getElem?_range (lt_trans hij hjn), List.getElem?_range hjn]
    simp only [Option.map_some', ne_eq, Option.some.injEq]
    unfold toastId
    omega

/-- Witness for C9's amended statement: among 3 same-millisecond pushes,
the first and third toasts get distinct ids. -/
theorem C9_witness :
    (0 : Nat) < 2 ∧ (2 : Nat) < 3 ∧ (3 : Nat) ≤ 1000 ∧
    ((pushSame 3 7).toasts.map ToastEntry.id)[0]? ≠
      ((pushSame 3 7).toasts.map ToastEntry.id)[2]? :=
  ⟨by decide, by decide, by decide,
    C9_toast_ids_and_timers.2.1 7 3 0 2 (by decide) (by decide) (by decide)⟩

end Czisch
